import Mathlib

/-!
Verification of the batch-swap settlement engine
(`crates/core/component/dex/src/component/router/route_and_fill.rs`).

The engine is embedded shallowly:

* `Value`, `SwapExecution`, `TradingPair`, `BatchSwapOutputData` mirror the
  data types used by the source file.
* Amounts are `Nat`; the source's checked/panicking arithmetic on `Amount`
  (u128 with checked subtraction, underflow fatal) is embedded by explicit
  guards that return the `panic` outcome on underflow.
* The external collaborators (Router `path_search`, Fill Executor
  `fill_route`, `SwapExecution::max_price`) are consumed through narrow
  contracts; their per-iteration responses are supplied by an environment
  `Nat → StepResponse` indexed by the loop iteration, so theorems quantify
  over all (including adversarial) collaborator behaviours.
* State writes of the loop (closing a position on overflow recovery) are
  recorded in the loop state (`closed`).
-/

namespace PenumbraDex

/-- An (amount, asset identifier) pair, mirroring `penumbra_asset::Value`.
Asset identifiers are abstracted as `Nat`. -/
structure Value where
  amount : Nat
  asset_id : Nat
deriving DecidableEq, Repr

/-- Result of one directional route-and-fill call, mirroring `SwapExecution`:
the traces, the input actually consumed and the output produced. -/
structure SwapExecution where
  traces : List (List Value)
  input : Value
  output : Value
deriving DecidableEq, Repr

/-- A trading pair of two asset identifiers, mirroring `TradingPair`. -/
structure TradingPair where
  asset_1 : Nat
  asset_2 : Nat
deriving DecidableEq, Repr

/-- The final settlement record, mirroring `BatchSwapOutputData`. -/
structure BatchSwapOutputData where
  height : Nat
  epoch_starting_height : Nat
  trading_pair : TradingPair
  delta_1 : Nat
  delta_2 : Nat
  lambda_1 : Nat
  lambda_2 : Nat
  unfilled_1 : Nat
  unfilled_2 : Nat
deriving DecidableEq, Repr

/-- Routing parameters. Only the optional price limit is inspected by
`route_and_fill` itself; the router-internal tuning is abstracted into the
environment. Prices are abstracted as `Nat` (only comparisons matter). -/
structure RoutingParams where
  price_limit : Option Nat
deriving DecidableEq, Repr

/-- Modelled from the spec: `ExecutionCircuitBreaker` (its definition lives
outside the provided source files). Mutable counters
`current_path_searches`, `current_executions` against fixed limits. -/
structure ExecutionCircuitBreaker where
  max_path_searches : Nat
  current_path_searches : Nat
  max_executions : Nat
  current_executions : Nat
deriving DecidableEq, Repr

/-- Modelled from the spec: `exceeded_limits()` is true when either counter
reaches its limit. -/
def ExecutionCircuitBreaker.exceeded_limits (ecb : ExecutionCircuitBreaker) : Bool :=
  decide (ecb.max_path_searches ≤ ecb.current_path_searches) ||
  decide (ecb.max_executions ≤ ecb.current_executions)

/-- Modelled from the spec: default limits are fixed system-wide constants
(the spec does not give their numeric value; no claim depends on it). -/
def ExecutionCircuitBreaker.default : ExecutionCircuitBreaker :=
  { max_path_searches := 64, current_path_searches := 0
    max_executions := 64, current_executions := 0 }

/-- Modelled from the spec: `ValueCircuitBreaker`, a mapping from asset
identifier to an available-amount ceiling, read-only during a batch. -/
structure ValueCircuitBreaker where
  balances : Nat → Nat

/-- Modelled from the spec: the available balance of an asset. -/
def ValueCircuitBreaker.available (vcb : ValueCircuitBreaker) (asset : Nat) : Value :=
  { amount := vcb.balances asset, asset_id := asset }

/-- Modelled from the spec: `MAX_RESERVE_AMOUNT`, the hard per-iteration
input ceiling (its numeric value lives outside the provided source files;
the claims depend only on it being a fixed constant). -/
def MAX_RESERVE_AMOUNT : Nat := 2 ^ 112 - 1

deriving instance DecidableEq for Except

/-- Fill Executor failure type, mirroring `FillError`: an overflow naming a
culprit position, or any other (unrecoverable) error. -/
inductive FillError where
  | executionOverflow (position_id : Nat)
  | other
deriving DecidableEq, Repr

/-- The collaborator responses consumed by one loop iteration:
* `search`: the Router's `path_search` result — an error, no path, or a path
  (the spill price is absorbed into the fill response);
* `fill`: the Fill Executor's `fill_route` result for this iteration;
* `maxPrice`: modelled from the spec — the value of
  `SwapExecution::max_price()` on this iteration's execution (computed by
  code outside the provided source files); `none` means nothing was
  actually traded. -/
structure StepResponse where
  search : Except Unit (Option (List Nat))
  fill : Except FillError SwapExecution
  maxPrice : Option Nat

/-- Outcome of a call in the embedding: a returned value, a propagated
`anyhow` error, or a fatal panic (failed `expect`/`assert`). -/
inductive Outcome (α : Type) where
  | ok (val : α)
  | err
  | panic
deriving DecidableEq, Repr

/-- The mutable state of the `route_and_fill` loop: the running unfilled
input, accumulated output, accumulated traces, the positions closed by
overflow recovery (a state write in the source), and the circuit breaker. -/
structure LoopState where
  total_unfilled_1 : Nat
  total_output_2 : Nat
  traces : List (List Value)
  closed : List Nat
  ecb : ExecutionCircuitBreaker
deriving DecidableEq, Repr

/-- How the loop ends: a `break` (normal exit), a propagated error, or a
panic, each with the loop state at that point. -/
inductive RafStep where
  | done (st : LoopState)
  | fail (st : LoopState)
  | panicAt (st : LoopState)
deriving DecidableEq, Repr

/-- The state update applied by a loop iteration whose fill succeeds
(`route_and_fill.rs` lines 246-269), after the `checked_sub` succeeded:
`unfilled_1 = total_unfilled_1 - execution.input.amount`, then
`total_output_2 += lambda_2`, `traces += execution.traces`,
`total_unfilled_1 := total_unfilled_1 - delta_1.amount + unfilled_1.amount`
where `delta_1.amount = min(total_unfilled_1, MAX_RESERVE_AMOUNT)`, and the
execution counter is incremented. -/
def fill_success_update (st : LoopState) (execution : SwapExecution) : LoopState :=
  let delta_1_amount := min st.total_unfilled_1 MAX_RESERVE_AMOUNT
  let unfilled_1_amount := st.total_unfilled_1 - execution.input.amount
  { total_unfilled_1 := st.total_unfilled_1 - delta_1_amount + unfilled_1_amount
    total_output_2 := st.total_output_2 + execution.output.amount
    traces := st.traces ++ execution.traces
    closed := st.closed
    ecb := { st.ecb with
             current_path_searches := st.ecb.current_path_searches + 1
             current_executions := st.ecb.current_executions + 1 } }

/-- The state update applied by the overflow-recovery branch
(`route_and_fill.rs` lines 226-236): the culprit position is closed and the
loop retries; only the path-search counter (already incremented before the
fill) is consumed. -/
def overflow_recovery_update (st : LoopState) (position_id : Nat) : LoopState :=
  { st with
    ecb := { st.ecb with current_path_searches := st.ecb.current_path_searches + 1 }
    closed := st.closed ++ [position_id] }

/-- One step of the `route_and_fill` loop (`route_and_fill.rs` lines
186-293), fuel-indexed. `none` marks fuel exhaustion; `rafGoF_isSome` proves
the fuel used by `route_and_fill` never runs out, for every environment.
`i` indexes the environment response consumed by this iteration. -/
def rafGoF (env : Nat → StepResponse) (asset_1 asset_2 : Nat) (params : RoutingParams) :
    Nat → Nat → LoopState → Option RafStep
  | 0, _, _ => none
  | fuel + 1, i, st =>
    if st.ecb.exceeded_limits then some (.done st)
    else
      match (env i).search with
      | .error _ => some (.fail st)
      | .ok none => some (.done st)
      | .ok (some path) =>
        if path.isEmpty then some (.done st)
        else
          match (env i).fill with
          | .error (.executionOverflow position_id) =>
            rafGoF env asset_1 asset_2 params fuel (i + 1)
              (overflow_recovery_update st position_id)
          | .error .other =>
            some (.fail { st with
              ecb := { st.ecb with
                       current_path_searches := st.ecb.current_path_searches + 1 } })
          | .ok execution =>
            if execution.input.amount ≤ st.total_unfilled_1 then
              if execution.output.asset_id = asset_2 then
                if (fill_success_update st execution).total_unfilled_1 = 0 then
                  some (.done (fill_success_update st execution))
                else
                  match (env i).maxPrice with
                  | none => some (.done (fill_success_update st execution))
                  | some accurate_max_price =>
                    match params.price_limit with
                    | some price_limit =>
                      if price_limit ≤ accurate_max_price then
                        some (.done (fill_success_update st execution))
                      else
                        rafGoF env asset_1 asset_2 params fuel (i + 1)
                          (fill_success_update st execution)
                    | none =>
                      rafGoF env asset_1 asset_2 params fuel (i + 1)
                        (fill_success_update st execution)
              else
                some (.panicAt { st with
                  ecb := { st.ecb with
                           current_path_searches := st.ecb.current_path_searches + 1 } })
            else
              some (.panicAt { st with
                ecb := { st.ecb with
                         current_path_searches := st.ecb.current_path_searches + 1 } })

/-- The initial loop state of `route_and_fill` (lines 170-178). -/
def initLoopState (input : Nat) (ecb : ExecutionCircuitBreaker) : LoopState :=
  { total_unfilled_1 := input, total_output_2 := 0, traces := [], closed := [], ecb := ecb }

/-- Fuel sufficient for the loop: one more than the remaining path-search
budget (every non-exiting iteration increments the path-search counter). -/
def rafFuel (ecb : ExecutionCircuitBreaker) : Nat :=
  ecb.max_path_searches - ecb.current_path_searches + 1

/-- `route_and_fill` (lines 157-306): run the loop, then build the
`SwapExecution` with `input = input - total_unfilled_1` (a panicking
`Amount` subtraction) and `output = total_output_2`. The `none` fuel branch
is unreachable (`rafGoF_isSome`). -/
def route_and_fill (env : Nat → StepResponse) (asset_1 asset_2 : Nat) (input : Nat)
    (params : RoutingParams) (execution_circuit_breaker : ExecutionCircuitBreaker) :
    Outcome SwapExecution :=
  match rafGoF env asset_1 asset_2 params (rafFuel execution_circuit_breaker) 0
      (initLoopState input execution_circuit_breaker) with
  | none => .panic
  | some (.fail _) => .err
  | some (.panicAt _) => .panic
  | some (.done st) =>
    if st.total_unfilled_1 ≤ input then
      .ok { traces := st.traces
            input := { amount := input - st.total_unfilled_1, asset_id := asset_1 }
            output := { amount := st.total_output_2, asset_id := asset_2 } }
    else .panic

/-- One direction of `handle_batch_swaps` (lines 66-96): call
`route_and_fill` when the delta is positive, skip otherwise; `?` propagates
its error. -/
def run_direction (env : Nat → StepResponse) (a_in a_out : Nat) (delta : Nat)
    (params : RoutingParams) : Outcome (Option SwapExecution) :=
  if 0 < delta then
    match route_and_fill env a_in a_out delta params ExecutionCircuitBreaker.default with
    | .ok se => .ok (some se)
    | .err => .err
    | .panic => .panic
  else .ok none

/-- Lines 98-111: derive `(lambda, unfilled)` for one direction from the
optional `SwapExecution`; the `delta - input.amount` subtraction is a
panicking `Amount` subtraction. -/
def derive_outputs (delta : Nat) : Option SwapExecution → Outcome (Nat × Nat)
  | some se =>
    if se.input.amount ≤ delta then .ok (se.output.amount, delta - se.input.amount)
    else .panic
  | none => .ok (0, delta)

/-- `handle_batch_swaps` (lines 35-148): run both directions, derive the
output data, assert the value-circuit-breaker bounds (lines 128-135), then
commit via `set_output_data`. The `ok` value is exactly what is committed. -/
def handle_batch_swaps (env1 env2 : Nat → StepResponse) (vcb : ValueCircuitBreaker)
    (trading_pair : TradingPair) (delta_1 delta_2 : Nat)
    (block_height epoch_starting_height : Nat) (params : RoutingParams) :
    Outcome (BatchSwapOutputData × Option SwapExecution × Option SwapExecution) :=
  match run_direction env1 trading_pair.asset_1 trading_pair.asset_2 delta_1 params with
  | .err => .err
  | .panic => .panic
  | .ok swap_execution_1_for_2 =>
    match run_direction env2 trading_pair.asset_2 trading_pair.asset_1 delta_2 params with
    | .err => .err
    | .panic => .panic
    | .ok swap_execution_2_for_1 =>
      match derive_outputs delta_1 swap_execution_1_for_2 with
      | .err => .err
      | .panic => .panic
      | .ok (lambda_2, unfilled_1) =>
        match derive_outputs delta_2 swap_execution_2_for_1 with
        | .err => .err
        | .panic => .panic
        | .ok (lambda_1, unfilled_2) =>
          let output_data : BatchSwapOutputData :=
            { height := block_height, epoch_starting_height := epoch_starting_height
              trading_pair := trading_pair
              delta_1 := delta_1, delta_2 := delta_2
              lambda_1 := lambda_1, lambda_2 := lambda_2
              unfilled_1 := unfilled_1, unfilled_2 := unfilled_2 }
          if output_data.lambda_1 ≤ (vcb.available trading_pair.asset_1).amount then
            if output_data.lambda_2 ≤ (vcb.available trading_pair.asset_2).amount then
              .ok (output_data, swap_execution_1_for_2, swap_execution_2_for_1)
            else .panic
          else .panic

/-- The input amount consumed by an optional directional execution. -/
def consumed : Option SwapExecution → Nat
  | some se => se.input.amount
  | none => 0

/-- Example execution: consumes 5 of asset 1, produces 5 of asset 2. -/
def exFull : SwapExecution :=
  { traces := [[{ amount := 5, asset_id := 1 }, { amount := 5, asset_id := 2 }]]
    input := { amount := 5, asset_id := 1 }
    output := { amount := 5, asset_id := 2 } }

/-- Example execution: consumes 1 of asset 1, produces 1 of asset 2. -/
def oneUnitFill : SwapExecution :=
  { traces := [[{ amount := 1, asset_id := 1 }, { amount := 1, asset_id := 2 }]]
    input := { amount := 1, asset_id := 1 }
    output := { amount := 1, asset_id := 2 } }

/-- Example environment: the fill overflows on position 7 at the first
iteration and fills the full input afterwards. -/
def onceEnv : Nat → StepResponse := fun i =>
  if i = 0 then
    { search := Except.ok (some [1, 2])
      fill := Except.error (FillError.executionOverflow 7)
      maxPrice := none }
  else
    { search := Except.ok (some [1, 2]), fill := Except.ok exFull, maxPrice := none }

/-- Example environment: the Router's `path_search` always returns an
error; the Fill Executor never fails. -/
def routerErrEnv : Nat → StepResponse :=
  fun _ => { search := Except.error (), fill := Except.ok exFull, maxPrice := none }

/-- Example environment: always finds a path and fills one unit, with no
usable maximum price. -/
def oneUnitEnv : Nat → StepResponse :=
  fun _ => { search := Except.ok (some [1, 2]), fill := Except.ok oneUnitFill, maxPrice := none }

/-- Example environment: the Router finds no path. -/
def noPathEnv : Nat → StepResponse :=
  fun _ => { search := Except.ok none, fill := Except.ok exFull, maxPrice := none }

/-- Example state: unfilled input greater than twice `MAX_RESERVE_AMOUNT`. -/
def hugeState : LoopState :=
  initLoopState (2 * MAX_RESERVE_AMOUNT + 5) ExecutionCircuitBreaker.default

/-- Example execution for the reverse direction: consumes 1 of asset 2,
produces 1 of asset 1. -/
def flipFill : SwapExecution :=
  { traces := [[{ amount := 1, asset_id := 2 }, { amount := 1, asset_id := 1 }]]
    input := { amount := 1, asset_id := 2 }
    output := { amount := 1, asset_id := 1 } }

/-- Example environment for the reverse direction: always finds a path and
fills one unit of asset 2 into asset 1. -/
def flipEnv : Nat → StepResponse :=
  fun _ => { search := Except.ok (some [2, 1]), fill := Except.ok flipFill, maxPrice := none }

/-- Core bound: the loop needs at most `max_path_searches -
current_path_searches + 1` iterations, because every iteration that does
not exit increments the path-search counter (line 210) before any fill, and
the loop exits once `exceeded_limits()` holds (lines 188-191). -/
theorem rafGoF_isSome (env : Nat → StepResponse) (asset_1 asset_2 : Nat)
    (params : RoutingParams) :
    ∀ fuel i st, st.ecb.max_path_searches - st.ecb.current_path_searches < fuel →
      (rafGoF env asset_1 asset_2 params fuel i st).isSome = true := by
  intro fuel
  induction fuel with
  | zero => intro i st h; exact absurd h (Nat.not_lt_zero _)
  | succ fuel ih =>
    intro i st h
    rw [rafGoF]
    split
    · rfl
    · rename_i hex
      have hcps : st.ecb.current_path_searches < st.ecb.max_path_searches := by
        simp only [ExecutionCircuitBreaker.exceeded_limits, Bool.or_eq_true,
          decide_eq_true_eq, not_or, not_le] at hex
        exact hex.1
      split
      · rfl
      · rfl
      · split
        · rfl
        · split
          · apply ih
            simp only [overflow_recovery_update]
            omega
          · rfl
          · split
            · split
              · split
                · rfl
                · split
                  · rfl
                  · split
                    · split
                      · rfl
                      · apply ih
                        simp only [fill_success_update]
                        omega
                    · apply ih
                      simp only [fill_success_update]
                      omega
              · rfl
            · rfl

/-- C3: for every input amount and every (possibly adversarial) sequence of
Router and Fill Executor responses — including environments that always
return a fillable non-empty path with zero progress and any number of
overflow-retry iterations — the `route_and_fill` loop terminates within the
execution circuit breaker's path-search budget: fuel
`max_path_searches - current_path_searches + 1` is never exhausted, because
every iteration either exits the loop or increments the path-search counter
before any fill, and the loop exits once `exceeded_limits()` holds. -/
theorem route_and_fill_bounded_termination (env : Nat → StepResponse)
    (asset_1 asset_2 input : Nat) (params : RoutingParams)
    (ecb : ExecutionCircuitBreaker) :
    (rafGoF env asset_1 asset_2 params (rafFuel ecb) 0
      (initLoopState input ecb)).isSome = true := by
  apply rafGoF_isSome
  simp only [initLoopState, rafFuel]
  omega

/-- C5: when `fill_route` fails with `ExecutionOverflow(P)` on an iteration
that reached the fill (circuit breaker not exceeded, a non-empty path was
found), the loop closes exactly position `P` exactly once for that failure,
keeps `total_unfilled_1`, `total_output_2`, the traces and the execution
counter unchanged, consumes only the already-counted path-search increment,
and retries from the top of the loop instead of returning an error. -/
theorem overflow_recovery_step (env : Nat → StepResponse) (asset_1 asset_2 : Nat)
    (params : RoutingParams) (fuel i : Nat) (st : LoopState)
    (position_id : Nat) (path : List Nat)
    (hex : st.ecb.exceeded_limits = false)
    (hs : (env i).search = Except.ok (some path))
    (hp : path.isEmpty = false)
    (hf : (env i).fill = Except.error (FillError.executionOverflow position_id)) :
    rafGoF env asset_1 asset_2 params (fuel + 1) i st =
      rafGoF env asset_1 asset_2 params fuel (i + 1)
        (overflow_recovery_update st position_id) ∧
    (overflow_recovery_update st position_id).closed = st.closed ++ [position_id] ∧
    (overflow_recovery_update st position_id).total_unfilled_1 = st.total_unfilled_1 ∧
    (overflow_recovery_update st position_id).total_output_2 = st.total_output_2 ∧
    (overflow_recovery_update st position_id).traces = st.traces ∧
    (overflow_recovery_update st position_id).ecb.current_executions =
      st.ecb.current_executions ∧
    (overflow_recovery_update st position_id).ecb.current_path_searches =
      st.ecb.current_path_searches + 1 ∧
    rafGoF onceEnv 1 2 { price_limit := none }
        (rafFuel ExecutionCircuitBreaker.default) 0
        (initLoopState 5 ExecutionCircuitBreaker.default) =
      some (RafStep.done
        { total_unfilled_1 := 0, total_output_2 := 5, traces := exFull.traces
          closed := [7]
          ecb := { max_path_searches := 64, current_path_searches := 2
                   max_executions := 64, current_executions := 1 } }) ∧
    route_and_fill onceEnv 1 2 5 { price_limit := none }
        ExecutionCircuitBreaker.default =
      Outcome.ok { traces := exFull.traces
                   input := { amount := 5, asset_id := 1 }
                   output := { amount := 5, asset_id := 2 } } := by
  refine ⟨?_, rfl, rfl, rfl, rfl, rfl, rfl, by decide, by decide⟩
  simp [rafGoF, hex, hs, hp, hf]

/-- Witness for `overflow_recovery_step`: the overflow-once environment at
its first iteration; the call then runs to completion with position 7
closed exactly once. -/
theorem overflow_recovery_step_witness :
    rafGoF onceEnv 1 2 { price_limit := none } 65 0
        (initLoopState 5 ExecutionCircuitBreaker.default) =
      rafGoF onceEnv 1 2 { price_limit := none } 64 1
        (overflow_recovery_update (initLoopState 5 ExecutionCircuitBreaker.default) 7) ∧
    route_and_fill onceEnv 1 2 5 { price_limit := none }
        ExecutionCircuitBreaker.default =
      Outcome.ok { traces := exFull.traces
                   input := { amount := 5, asset_id := 1 }
                   output := { amount := 5, asset_id := 2 } } :=
  ⟨(overflow_recovery_step onceEnv 1 2 { price_limit := none } 64 0
      (initLoopState 5 ExecutionCircuitBreaker.default) 7 [1, 2]
      (by decide) (by decide) (by decide) (by decide)).1,
   (overflow_recovery_step onceEnv 1 2 { price_limit := none } 64 0
      (initLoopState 5 ExecutionCircuitBreaker.default) 7 [1, 2]
      (by decide) (by decide) (by decide) (by decide)).2.2.2.2.2.2.2.2⟩

/-- C9: when the routing parameters configure a price limit `P` and a
successful fill's accurate maximum price reaches or exceeds `P`, the loop
performs no further path search or fill and returns the accumulated state,
even when `total_unfilled_1` is still strictly positive. -/
theorem price_limit_stop (env : Nat → StepResponse) (asset_1 asset_2 : Nat)
    (params : RoutingParams) (fuel i : Nat) (st : LoopState)
    (path : List Nat) (execution : SwapExecution)
    (accurate_max_price price_limit : Nat)
    (hex : st.ecb.exceeded_limits = false)
    (hs : (env i).search = Except.ok (some path))
    (hp : path.isEmpty = false)
    (hf : (env i).fill = Except.ok execution)
    (h1 : execution.input.amount ≤ st.total_unfilled_1)
    (h2 : execution.output.asset_id = asset_2)
    (h3 : (fill_success_update st execution).total_unfilled_1 ≠ 0)
    (hm : (env i).maxPrice = some accurate_max_price)
    (hpl : params.price_limit = some price_limit)
    (hge : price_limit ≤ accurate_max_price) :
    rafGoF env asset_1 asset_2 params (fuel + 1) i st =
      some (RafStep.done (fill_success_update st execution)) := by
  simp [rafGoF, hex, hs, hp, hf, h1, h2, h3, hm, hpl, hge]

/-- Witness for `price_limit_stop`: price limit 10, maximum price 10,
one-unit progress on input 5 (4 still unfilled). -/
theorem price_limit_stop_witness :
    rafGoF (fun _ => { search := Except.ok (some [1, 2])
                       fill := Except.ok oneUnitFill
                       maxPrice := some 10 })
        1 2 { price_limit := some 10 } 65 0
        (initLoopState 5 ExecutionCircuitBreaker.default) =
      some (RafStep.done (fill_success_update
        (initLoopState 5 ExecutionCircuitBreaker.default) oneUnitFill)) :=
  price_limit_stop (fun _ => { search := Except.ok (some [1, 2])
                               fill := Except.ok oneUnitFill
                               maxPrice := some 10 })
    1 2 { price_limit := some 10 } 64 0
    (initLoopState 5 ExecutionCircuitBreaker.default) [1, 2] oneUnitFill 10 10
    (by decide) (by decide) (by decide) (by decide) (by decide) (by decide)
    (by decide) (by decide) (by decide) (by decide)

/-- Counterexample to C4: with `total_unfilled_1 = 2 * MAX_RESERVE_AMOUNT + 5`
and a successful fill consuming one unit, the code's update
`total_unfilled_1 - delta_1.amount + (total_unfilled_1 - consumed)`
(lines 246-265) yields `3 * MAX_RESERVE_AMOUNT + 9`, strictly greater than
the previous `total_unfilled_1` — so the new value can exceed the previous
one when it is greater than `MAX_RESERVE_AMOUNT`. -/
theorem fill_update_unfilled_increase_cex :
    (fill_success_update hugeState oneUnitFill).total_unfilled_1 =
      3 * MAX_RESERVE_AMOUNT + 9 ∧
    hugeState.total_unfilled_1 < (fill_success_update hugeState oneUnitFill).total_unfilled_1 ∧
    rafGoF oneUnitEnv 1 2 { price_limit := none } 1 0 hugeState =
      some (RafStep.done (fill_success_update hugeState oneUnitFill)) := by
  refine ⟨?_, ?_, by decide⟩ <;>
    simp [fill_success_update, hugeState, initLoopState, oneUnitFill,
      MAX_RESERVE_AMOUNT, ExecutionCircuitBreaker.default]

/-- C4 (amended): for a successful fill iteration, the new
`total_unfilled_1` equals
`total_unfilled_1 - min(total_unfilled_1, MAX_RESERVE_AMOUNT) +
(total_unfilled_1 - consumed)` (checked arithmetic); when the previous
`total_unfilled_1` is at most `MAX_RESERVE_AMOUNT` (so the iteration input
is all of it), this equals the previous value minus the input actually
consumed and never exceeds the previous value. -/
theorem fill_update_unfilled_amended (st : LoopState) (execution : SwapExecution)
    (hc : execution.input.amount ≤ st.total_unfilled_1) :
    (fill_success_update st execution).total_unfilled_1 =
      st.total_unfilled_1 - min st.total_unfilled_1 MAX_RESERVE_AMOUNT +
        (st.total_unfilled_1 - execution.input.amount) ∧
    (st.total_unfilled_1 ≤ MAX_RESERVE_AMOUNT →
      (fill_success_update st execution).total_unfilled_1 =
        st.total_unfilled_1 - execution.input.amount ∧
      (fill_success_update st execution).total_unfilled_1 ≤ st.total_unfilled_1) := by
  refine ⟨rfl, fun hle => ?_⟩
  simp only [fill_success_update]
  rw [Nat.min_eq_left hle]
  omega

/-- Witness for `fill_update_unfilled_amended`: input 5 (below the
reserve ceiling), one unit consumed, new unfilled amount 4. -/
theorem fill_update_unfilled_amended_witness :
    (fill_success_update (initLoopState 5 ExecutionCircuitBreaker.default)
        oneUnitFill).total_unfilled_1 = 4 ∧
    (fill_success_update (initLoopState 5 ExecutionCircuitBreaker.default)
        oneUnitFill).total_unfilled_1 ≤ 5 :=
  ((fill_update_unfilled_amended (initLoopState 5 ExecutionCircuitBreaker.default)
      oneUnitFill (by decide)).2 (by decide))

/-- Helper: when the Router never returns an error and the Fill Executor
never fails with the non-overflow error, the loop never exits through the
error-propagation branches. -/
theorem rafGoF_no_fail (env : Nat → StepResponse) (asset_1 asset_2 : Nat)
    (params : RoutingParams)
    (hsearch : ∀ i, (env i).search ≠ Except.error ())
    (hfill : ∀ i, (env i).fill ≠ Except.error FillError.other) :
    ∀ fuel i st st',
      rafGoF env asset_1 asset_2 params fuel i st ≠ some (RafStep.fail st') := by
  intro fuel
  induction fuel with
  | zero => intro i st st' h; exact Option.noConfusion h
  | succ fuel ih =>
    intro i st st'
    rw [rafGoF]
    split
    · simp
    · split
      · rename_i u heq
        cases u
        exact absurd heq (hsearch i)
      · simp
      · split
        · simp
        · split
          · exact ih (i + 1) _ st'
          · rename_i heq
            exact absurd heq (hfill i)
          · split
            · split
              · split
                · simp
                · split
                  · simp
                  · split
                    · split
                      · simp
                      · exact ih (i + 1) _ st'
                    · exact ih (i + 1) _ st'
              · simp
            · simp

/-- Counterexample to C7: an environment whose Router's `path_search`
returns an error at the first iteration, while the Fill Executor never
fails, makes `route_and_fill` return an error (the `?` on `path_search`,
lines 194-197) — so a Router outcome can cause an error return. -/
theorem route_and_fill_router_error_cex :
    route_and_fill routerErrEnv 1 2 5 { price_limit := none }
        ExecutionCircuitBreaker.default = Outcome.err ∧
    (routerErrEnv 0).fill = Except.ok exFull := by
  decide

/-- C7 (amended): `route_and_fill` returns an error only when a
collaborator fails — when the Router's `path_search` never returns an error
and the Fill Executor never fails with the unrecoverable (non-overflow)
error, `route_and_fill` does not return an error; in particular no
successful path-search outcome (no path, empty path, or any path) causes an
error return. -/
theorem route_and_fill_err_requires_collaborator_error (env : Nat → StepResponse)
    (asset_1 asset_2 input : Nat) (params : RoutingParams)
    (ecb : ExecutionCircuitBreaker)
    (hsearch : ∀ i, (env i).search ≠ Except.error ())
    (hfill : ∀ i, (env i).fill ≠ Except.error FillError.other) :
    route_and_fill env asset_1 asset_2 input params ecb ≠ Outcome.err := by
  rw [route_and_fill]
  split
  · simp
  · rename_i st' heq
    exact absurd heq (rafGoF_no_fail env asset_1 asset_2 params hsearch hfill _ _ _ _)
  · simp
  · split <;> simp

/-- Witness for `route_and_fill_err_requires_collaborator_error`: the
no-path environment never errs. -/
theorem route_and_fill_err_requires_collaborator_error_witness :
    route_and_fill noPathEnv 1 2 5 { price_limit := none }
        ExecutionCircuitBreaker.default ≠ Outcome.err :=
  route_and_fill_err_requires_collaborator_error noPathEnv 1 2 5
    { price_limit := none } ExecutionCircuitBreaker.default
    (fun i h => by simp [noPathEnv] at h) (fun i h => by simp [noPathEnv] at h)

/-- C10: an `Ok` result of `route_and_fill` carries the input asset
identifier on its input value and the output asset identifier on its output
value (lines 295-305); and any iteration whose successful execution has an
output asset different from `asset_2` hits the `assert_eq` (line 256) — a
panic — before being accumulated. -/
theorem route_and_fill_asset_labeling :
    (∀ (env : Nat → StepResponse) (asset_1 asset_2 input : Nat)
        (params : RoutingParams) (ecb : ExecutionCircuitBreaker) (se : SwapExecution),
      route_and_fill env asset_1 asset_2 input params ecb = Outcome.ok se →
      se.input.asset_id = asset_1 ∧ se.output.asset_id = asset_2) ∧
    (∀ (env : Nat → StepResponse) (asset_1 asset_2 : Nat) (params : RoutingParams)
        (fuel i : Nat) (st : LoopState) (path : List Nat) (execution : SwapExecution),
      st.ecb.exceeded_limits = false →
      (env i).search = Except.ok (some path) →
      path.isEmpty = false →
      (env i).fill = Except.ok execution →
      execution.input.amount ≤ st.total_unfilled_1 →
      execution.output.asset_id ≠ asset_2 →
      rafGoF env asset_1 asset_2 params (fuel + 1) i st =
        some (RafStep.panicAt { st with ecb := { st.ecb with
          current_path_searches := st.ecb.current_path_searches + 1 } })) := by
  constructor
  · intro env asset_1 asset_2 input params ecb se h
    rw [route_and_fill] at h
    split at h
    · exact Outcome.noConfusion h
    · exact Outcome.noConfusion h
    · exact Outcome.noConfusion h
    · split at h
      · simp only [Outcome.ok.injEq] at h
        subst h
        exact ⟨rfl, rfl⟩
      · exact Outcome.noConfusion h
  · intro env asset_1 asset_2 params fuel i st path execution hex hs hp hf h1 h2
    simp [rafGoF, hex, hs, hp, hf, h1, h2]

/-- Witness for `route_and_fill_asset_labeling`: the one-unit environment
labels its result with assets 1 and 2; run against asset_2 = 3 the same
environment's execution (output asset 2) trips the assertion. -/
theorem route_and_fill_asset_labeling_witness :
    (({ traces := oneUnitFill.traces
        input := { amount := 1, asset_id := 1 }
        output := { amount := 1, asset_id := 2 } } : SwapExecution).input.asset_id = 1 ∧
      ({ traces := oneUnitFill.traces
         input := { amount := 1, asset_id := 1 }
         output := { amount := 1, asset_id := 2 } } : SwapExecution).output.asset_id = 2) ∧
    rafGoF oneUnitEnv 1 3 { price_limit := none } (64 + 1) 0
        (initLoopState 5 ExecutionCircuitBreaker.default) =
      some (RafStep.panicAt { initLoopState 5 ExecutionCircuitBreaker.default with
        ecb := { (initLoopState 5 ExecutionCircuitBreaker.default).ecb with
          current_path_searches :=
            (initLoopState 5 ExecutionCircuitBreaker.default).ecb.current_path_searches + 1 } }) :=
  ⟨route_and_fill_asset_labeling.1 oneUnitEnv 1 2 5 { price_limit := none }
      ExecutionCircuitBreaker.default
      { traces := oneUnitFill.traces
        input := { amount := 1, asset_id := 1 }
        output := { amount := 1, asset_id := 2 } } (by decide),
   route_and_fill_asset_labeling.2 oneUnitEnv 1 3 { price_limit := none } 64 0
      (initLoopState 5 ExecutionCircuitBreaker.default) [1, 2] oneUnitFill
      (by decide) (by decide) (by decide) (by decide) (by decide) (by decide)⟩

/-- Helper: the `(lambda, unfilled)` derivation (lines 98-111) conserves
value: `unfilled + consumed = delta` whenever it succeeds. -/
theorem derive_outputs_conservation (delta : Nat) (o : Option SwapExecution)
    (l u : Nat) (h : derive_outputs delta o = Outcome.ok (l, u)) :
    u + consumed o = delta := by
  rcases o with _ | se
  · simp only [derive_outputs, Outcome.ok.injEq, Prod.mk.injEq] at h
    simp only [consumed]
    omega
  · simp only [derive_outputs] at h
    split at h
    · rename_i hle
      simp only [Outcome.ok.injEq, Prod.mk.injEq] at h
      simp only [consumed]
      omega
    · exact Outcome.noConfusion h

/-- C1: whenever `handle_batch_swaps` succeeds, the committed
`BatchSwapOutputData` conserves value in each direction: the recorded
unfilled amount plus the input consumed by that direction's
`route_and_fill` result equals the original aggregate input. -/
theorem handle_batch_swaps_conservation (env1 env2 : Nat → StepResponse)
    (vcb : ValueCircuitBreaker) (trading_pair : TradingPair)
    (delta_1 delta_2 block_height epoch_starting_height : Nat)
    (params : RoutingParams) (output_data : BatchSwapOutputData)
    (se1 se2 : Option SwapExecution)
    (h : handle_batch_swaps env1 env2 vcb trading_pair delta_1 delta_2
        block_height epoch_starting_height params =
        Outcome.ok (output_data, se1, se2)) :
    output_data.unfilled_1 + consumed se1 = output_data.delta_1 ∧
    output_data.unfilled_2 + consumed se2 = output_data.delta_2 ∧
    output_data.delta_1 = delta_1 ∧ output_data.delta_2 = delta_2 := by
  simp only [handle_batch_swaps] at h
  split at h <;> try exact Outcome.noConfusion h
  split at h <;> try exact Outcome.noConfusion h
  split at h <;> try exact Outcome.noConfusion h
  split at h <;> try exact Outcome.noConfusion h
  split at h
  · split at h
    · simp only [Outcome.ok.injEq, Prod.mk.injEq] at h
      obtain ⟨hod, hs1, hs2⟩ := h
      subst hod
      subst hs1
      subst hs2
      exact ⟨derive_outputs_conservation _ _ _ _ (by assumption),
        derive_outputs_conservation _ _ _ _ (by assumption), rfl, rfl⟩
    · exact Outcome.noConfusion h
  · exact Outcome.noConfusion h

/-- Witness for `handle_batch_swaps_conservation`: deltas 3 and 4 with no
route found in either direction — everything unfilled. -/
theorem handle_batch_swaps_conservation_witness :
    ({ height := 10, epoch_starting_height := 1, trading_pair := { asset_1 := 1, asset_2 := 2 }
       delta_1 := 3, delta_2 := 4, lambda_1 := 0, lambda_2 := 0
       unfilled_1 := 3, unfilled_2 := 4 } : BatchSwapOutputData).unfilled_1 +
      consumed (some { traces := ([] : List (List Value))
                       input := { amount := 0, asset_id := 1 }
                       output := { amount := 0, asset_id := 2 } }) =
      ({ height := 10, epoch_starting_height := 1, trading_pair := { asset_1 := 1, asset_2 := 2 }
         delta_1 := 3, delta_2 := 4, lambda_1 := 0, lambda_2 := 0
         unfilled_1 := 3, unfilled_2 := 4 } : BatchSwapOutputData).delta_1 ∧
    ({ height := 10, epoch_starting_height := 1, trading_pair := { asset_1 := 1, asset_2 := 2 }
       delta_1 := 3, delta_2 := 4, lambda_1 := 0, lambda_2 := 0
       unfilled_1 := 3, unfilled_2 := 4 } : BatchSwapOutputData).unfilled_2 +
      consumed (some { traces := ([] : List (List Value))
                       input := { amount := 0, asset_id := 2 }
                       output := { amount := 0, asset_id := 1 } }) =
      ({ height := 10, epoch_starting_height := 1, trading_pair := { asset_1 := 1, asset_2 := 2 }
         delta_1 := 3, delta_2 := 4, lambda_1 := 0, lambda_2 := 0
         unfilled_1 := 3, unfilled_2 := 4 } : BatchSwapOutputData).delta_2 ∧
    ({ height := 10, epoch_starting_height := 1, trading_pair := { asset_1 := 1, asset_2 := 2 }
       delta_1 := 3, delta_2 := 4, lambda_1 := 0, lambda_2 := 0
       unfilled_1 := 3, unfilled_2 := 4 } : BatchSwapOutputData).delta_1 = 3 := by
  have hmain := handle_batch_swaps_conservation noPathEnv noPathEnv
    { balances := fun _ => 0 } { asset_1 := 1, asset_2 := 2 } 3 4 10 1
    { price_limit := none }
    { height := 10, epoch_starting_height := 1, trading_pair := { asset_1 := 1, asset_2 := 2 }
      delta_1 := 3, delta_2 := 4, lambda_1 := 0, lambda_2 := 0
      unfilled_1 := 3, unfilled_2 := 4 }
    (some { traces := ([] : List (List Value))
            input := { amount := 0, asset_id := 1 }
            output := { amount := 0, asset_id := 2 } })
    (some { traces := ([] : List (List Value))
            input := { amount := 0, asset_id := 2 }
            output := { amount := 0, asset_id := 1 } })
    (by decide)
  exact ⟨hmain.1, hmain.2.1, hmain.2.2.1⟩

/-- C2: for every run of `handle_batch_swaps` in which both directional
calls and the `(lambda, unfilled)` derivations succeed but the assembled
output's `lambda_1` exceeds the value circuit breaker's available amount
for asset 1 (or symmetrically `lambda_2` for asset 2), the call halts with
the fatal assertion (lines 128-135): the result is `panic`, the outflow is
never clamped, and no output record is committed. -/
theorem handle_batch_swaps_vcb_enforcement (env1 env2 : Nat → StepResponse)
    (vcb : ValueCircuitBreaker) (trading_pair : TradingPair)
    (delta_1 delta_2 block_height epoch_starting_height : Nat)
    (params : RoutingParams) (se1 se2 : Option SwapExecution)
    (lambda_2 unfilled_1 lambda_1 unfilled_2 : Nat)
    (h1 : run_direction env1 trading_pair.asset_1 trading_pair.asset_2 delta_1 params =
      Outcome.ok se1)
    (h2 : run_direction env2 trading_pair.asset_2 trading_pair.asset_1 delta_2 params =
      Outcome.ok se2)
    (h3 : derive_outputs delta_1 se1 = Outcome.ok (lambda_2, unfilled_1))
    (h4 : derive_outputs delta_2 se2 = Outcome.ok (lambda_1, unfilled_2))
    (hviol : (vcb.available trading_pair.asset_1).amount < lambda_1 ∨
      (vcb.available trading_pair.asset_2).amount < lambda_2) :
    handle_batch_swaps env1 env2 vcb trading_pair delta_1 delta_2
        block_height epoch_starting_height params = Outcome.panic ∧
    ∀ r, handle_batch_swaps env1 env2 vcb trading_pair delta_1 delta_2
        block_height epoch_starting_height params ≠ Outcome.ok r := by
  have key : handle_batch_swaps env1 env2 vcb trading_pair delta_1 delta_2
      block_height epoch_starting_height params = Outcome.panic := by
    simp only [handle_batch_swaps, h1, h2, h3, h4]
    split
    · split
      · rename_i ha hb
        exfalso
        rcases hviol with hv | hv
        · exact absurd ha (not_le.mpr hv)
        · exact absurd hb (not_le.mpr hv)
      · rfl
    · rfl
  refine ⟨key, fun r hr => ?_⟩
  rw [key] at hr
  exact Outcome.noConfusion hr

/-- Witness for `handle_batch_swaps_vcb_enforcement`: direction 1 skipped,
direction 2 fills one unit of asset 1 while the breaker has 0 available —
`lambda_1 = 1 > 0` panics. -/
theorem handle_batch_swaps_vcb_enforcement_witness :
    handle_batch_swaps noPathEnv flipEnv { balances := fun _ => 0 }
        { asset_1 := 1, asset_2 := 2 } 0 5 10 1 { price_limit := none } =
      Outcome.panic :=
  (handle_batch_swaps_vcb_enforcement noPathEnv flipEnv { balances := fun _ => 0 }
    { asset_1 := 1, asset_2 := 2 } 0 5 10 1 { price_limit := none }
    none
    (some { traces := flipFill.traces
            input := { amount := 1, asset_id := 2 }
            output := { amount := 1, asset_id := 1 } })
    0 0 1 4
    (by decide) (by decide) (by decide) (by decide) (Or.inl (by decide))).1

/-- C6: when the direction-1 `route_and_fill` call returns an error, the
orchestrator propagates it: for every direction-2 environment the result is
that error — the other direction is not attempted (the result does not
depend on `env2`) and no output record is committed. -/
theorem handle_batch_swaps_error_propagation (env1 : Nat → StepResponse)
    (vcb : ValueCircuitBreaker) (trading_pair : TradingPair)
    (delta_1 delta_2 block_height epoch_starting_height : Nat)
    (params : RoutingParams)
    (hd : 0 < delta_1)
    (herr : route_and_fill env1 trading_pair.asset_1 trading_pair.asset_2 delta_1
        params ExecutionCircuitBreaker.default = Outcome.err) :
    ∀ env2 : Nat → StepResponse,
      handle_batch_swaps env1 env2 vcb trading_pair delta_1 delta_2
          block_height epoch_starting_height params = Outcome.err ∧
      ∀ r, handle_batch_swaps env1 env2 vcb trading_pair delta_1 delta_2
          block_height epoch_starting_height params ≠ Outcome.ok r := by
  intro env2
  have key : handle_batch_swaps env1 env2 vcb trading_pair delta_1 delta_2
      block_height epoch_starting_height params = Outcome.err := by
    simp only [handle_batch_swaps, run_direction, if_pos hd, herr]
  refine ⟨key, fun r hr => ?_⟩
  rw [key] at hr
  exact Outcome.noConfusion hr

/-- Witness for `handle_batch_swaps_error_propagation`: the Router-error
environment in direction 1 with the no-path environment in direction 2. -/
theorem handle_batch_swaps_error_propagation_witness :
    handle_batch_swaps routerErrEnv noPathEnv { balances := fun _ => 0 }
        { asset_1 := 1, asset_2 := 2 } 5 5 10 1 { price_limit := none } =
      Outcome.err :=
  (handle_batch_swaps_error_propagation routerErrEnv { balances := fun _ => 0 }
    { asset_1 := 1, asset_2 := 2 } 5 5 10 1 { price_limit := none }
    (by decide) (by decide) noPathEnv).1

/-- C8: a zero delta skips its direction entirely — the result does not
depend on that direction's environment (no path search, no fill), that
direction's execution is absent, and a committed record has zero output
and zero unfilled for it (`lambda_2 = 0`, `unfilled_1 = delta_1 = 0` when
`delta_1 = 0`; symmetrically for `delta_2 = 0`). -/
theorem handle_batch_swaps_skip_on_zero (env1 env1' env2 env2' : Nat → StepResponse)
    (vcb : ValueCircuitBreaker) (trading_pair : TradingPair)
    (d block_height epoch_starting_height : Nat) (params : RoutingParams) :
    (handle_batch_swaps env1 env2 vcb trading_pair 0 d
        block_height epoch_starting_height params =
      handle_batch_swaps env1' env2 vcb trading_pair 0 d
        block_height epoch_starting_height params) ∧
    (∀ od se1 se2,
      handle_batch_swaps env1 env2 vcb trading_pair 0 d
          block_height epoch_starting_height params = Outcome.ok (od, se1, se2) →
      od.lambda_2 = 0 ∧ od.unfilled_1 = 0 ∧ od.delta_1 = 0 ∧ se1 = none) ∧
    (handle_batch_swaps env1 env2 vcb trading_pair d 0
        block_height epoch_starting_height params =
      handle_batch_swaps env1 env2' vcb trading_pair d 0
        block_height epoch_starting_height params) ∧
    (∀ od se1 se2,
      handle_batch_swaps env1 env2 vcb trading_pair d 0
          block_height epoch_starting_height params = Outcome.ok (od, se1, se2) →
      od.lambda_1 = 0 ∧ od.unfilled_2 = 0 ∧ od.delta_2 = 0 ∧ se2 = none) := by
  have h0 : ∀ (env : Nat → StepResponse) (a b : Nat) (p : RoutingParams),
      run_direction env a b 0 p = Outcome.ok none := by
    intro env a b p
    simp [run_direction]
  refine ⟨?_, ?_, ?_, ?_⟩
  · simp only [handle_batch_swaps, h0]
  · intro od se1 se2 h
    simp only [handle_batch_swaps, h0, derive_outputs] at h
    split at h <;> try exact Outcome.noConfusion h
    split at h <;> try exact Outcome.noConfusion h
    split at h
    · split at h
      · simp only [Outcome.ok.injEq, Prod.mk.injEq] at h
        obtain ⟨hod, hs1, hs2⟩ := h
        subst hod
        subst hs1
        subst hs2
        exact ⟨rfl, rfl, rfl, rfl⟩
      · exact Outcome.noConfusion h
    · exact Outcome.noConfusion h
  · simp only [handle_batch_swaps, h0]
  · intro od se1 se2 h
    simp only [handle_batch_swaps, h0, derive_outputs] at h
    split at h <;> try exact Outcome.noConfusion h
    split at h <;> try exact Outcome.noConfusion h
    split at h
    · split at h
      · simp only [Outcome.ok.injEq, Prod.mk.injEq] at h
        obtain ⟨hod, hs1, hs2⟩ := h
        subst hod
        subst hs1
        subst hs2
        exact ⟨rfl, rfl, rfl, rfl⟩
      · exact Outcome.noConfusion h
    · exact Outcome.noConfusion h

/-- Witness for `handle_batch_swaps_skip_on_zero`: both deltas zero — the
committed record is all zeros and both executions absent. -/
theorem handle_batch_swaps_skip_on_zero_witness :
    ({ height := 10, epoch_starting_height := 1
       trading_pair := { asset_1 := 1, asset_2 := 2 }
       delta_1 := 0, delta_2 := 0, lambda_1 := 0, lambda_2 := 0
       unfilled_1 := 0, unfilled_2 := 0 } : BatchSwapOutputData).lambda_2 = 0 ∧
    ({ height := 10, epoch_starting_height := 1
       trading_pair := { asset_1 := 1, asset_2 := 2 }
       delta_1 := 0, delta_2 := 0, lambda_1 := 0, lambda_2 := 0
       unfilled_1 := 0, unfilled_2 := 0 } : BatchSwapOutputData).unfilled_1 = 0 ∧
    ({ height := 10, epoch_starting_height := 1
       trading_pair := { asset_1 := 1, asset_2 := 2 }
       delta_1 := 0, delta_2 := 0, lambda_1 := 0, lambda_2 := 0
       unfilled_1 := 0, unfilled_2 := 0 } : BatchSwapOutputData).delta_1 = 0 ∧
    (none : Option SwapExecution) = none :=
  (handle_batch_swaps_skip_on_zero noPathEnv noPathEnv noPathEnv noPathEnv
    { balances := fun _ => 0 } { asset_1 := 1, asset_2 := 2 } 0 10 1
    { price_limit := none }).2.1
    { height := 10, epoch_starting_height := 1
      trading_pair := { asset_1 := 1, asset_2 := 2 }
      delta_1 := 0, delta_2 := 0, lambda_1 := 0, lambda_2 := 0
      unfilled_1 := 0, unfilled_2 := 0 }
    none none (by decide)

end PenumbraDex
